import Mathlib

/-!
# Verification of the orbi speaker-identity engine and pipeline orchestrator

A shallow embedding of the core of the `orbi` backend:

* `be/database/vector_store.py` — the FAISS-backed embedding index
  (`VectorStore`): `add_embedding`, `search`, `find_matching_speaker`,
  `remove_speaker`.
* `be/services/speaker_manager.py` — the identity resolver
  (`SpeakerManager`): `identify_or_create_speaker`, `create_speaker`,
  `create_speaker_audio_association`, `merge_speakers`, `delete_speaker`.
* `be/tasks/process_audio.py` — the pipeline orchestrator
  (`process_audio_file` and `_process_with_traditional_pipeline`),
  modelled at the granularity of its database commit points.

Modelling conventions:

* Python floats are idealised as `ℚ`.  The only irrational operation in
  the modelled code is the L2 norm inside `faiss.normalize_L2`; we use
  `ratSqrt`, which agrees with the exact square root on every input whose
  squared norm is a rational square (all concrete inputs used below are of
  that form), so every concrete evaluation in this file is exact.
* SQLAlchemy rows are records in lists; a session `query(...).first()` is
  `List.find?`, `.count()` is a filtered length.  Primary-key generation
  (`uuid4`) is modelled by passing the fresh id in as an argument.
* Python's `None` for a speaker id is represented by the empty string
  `""`: both are falsy in the truthiness tests the code performs
  (`if speaker_id:`, `similarity_threshold or ...`), and real ids are
  non-empty.
-/

namespace Orbi

/-- Zero-padding to (at least) three digits, Python `f"{n:03d}"`. -/
def pad3 (n : Nat) : String :=
  if n < 10 then "00" ++ toString n
  else if n < 100 then "0" ++ toString n
  else toString n

/-- Rational square root used to idealise the float L2 norm: exact whenever
numerator and denominator of the (non-negative) input are perfect squares,
which holds for every concrete vector used in this development. -/
def ratSqrt (q : ℚ) : ℚ :=
  (Nat.sqrt q.num.toNat : ℚ) / (Nat.sqrt q.den : ℚ)

/-- Inner product of two vectors (`np.dot` / FAISS `IndexFlatIP` score). -/
def innerProduct (u v : List ℚ) : ℚ :=
  (List.zipWith (fun a b => a * b) u v).sum

/-- `faiss.normalize_L2`: divide by the L2 norm, leaving zero-norm vectors
unchanged (FAISS skips vectors with zero norm). -/
def normalizeL2 (v : List ℚ) : List ℚ :=
  let n := ratSqrt (innerProduct v v)
  if n = 0 then v else v.map (fun x => x / n)

/-- `config.settings.SPEAKER_SIMILARITY_THRESHOLD` (`config.py`). -/
def SPEAKER_SIMILARITY_THRESHOLD : ℚ := 85 / 100

/-- `config.settings.NEW_SPEAKER_THRESHOLD` (`config.py`); present in the
configuration but never consulted by `find_matching_speaker`. -/
def NEW_SPEAKER_THRESHOLD : ℚ := 70 / 100

/-- Per-position metadata of the vector store
(`VectorStore.metadata[idx]`): speaker id, segment id, audio-file id and
the `deleted` tombstone flag added by `remove_speaker` (absent = `false`). -/
structure VSMeta where
  speaker_id : String
  segment_id : String
  audio_file_id : String
  deleted : Bool
deriving DecidableEq, Repr

/-- The vector store (`VectorStore` in `vector_store.py`): the FAISS
`IndexFlatIP` is the position-indexed list `vectors` of stored
(normalised) vectors; `metadata` is position-aligned with it (positions
are handed out consecutively by `add_embedding`); `speaker_to_indices`
is the insertion-ordered dict mapping a speaker id to its positions. -/
structure VectorStore where
  vectors : List (List ℚ)
  metadata : List VSMeta
  speaker_to_indices : List (String × List Nat)
deriving DecidableEq, Repr

/-- A fresh empty store (`VectorStore._create_new_index`). -/
def VectorStore.empty : VectorStore := ⟨[], [], []⟩

/-- Ordered-dict lookup. -/
def dictGet (d : List (String × List Nat)) (k : String) : Option (List Nat) :=
  (d.find? (fun p => p.1 == k)).map (fun p => p.2)

/-- Append `v` to the list stored under `k`, creating the entry at the end
if absent (Python dict insertion semantics). -/
def dictAppend (d : List (String × List Nat)) (k : String) (v : Nat) :
    List (String × List Nat) :=
  match d with
  | [] => [(k, [v])]
  | p :: rest =>
      if p.1 == k then (p.1, p.2 ++ [v]) :: rest
      else p :: dictAppend rest k v

/-- `VectorStore.add_embedding`: normalise, append to the index at the next
position, record metadata there, append the position to the speaker's
position list.  Returns the position and the new store. -/
def VectorStore.add_embedding (vs : VectorStore) (embedding : List ℚ)
    (speaker_id segment_id audio_file_id : String) : Nat × VectorStore :=
  let e := normalizeL2 embedding
  let pos := vs.vectors.length
  (pos,
    { vectors := vs.vectors ++ [e]
      metadata := vs.metadata ++ [⟨speaker_id, segment_id, audio_file_id, false⟩]
      speaker_to_indices := dictAppend vs.speaker_to_indices speaker_id pos })

/-- Insert into a similarity-descending list, keeping earlier positions
first among equal scores (FAISS exact search returns scores in descending
order, lower index first on ties). -/
def insertDesc (x : Nat × ℚ) : List (Nat × ℚ) → List (Nat × ℚ)
  | [] => [x]
  | y :: ys => if x.2 > y.2 then x :: y :: ys else y :: insertDesc x ys

/-- Stable sort by similarity, descending. -/
def sortDesc (l : List (Nat × ℚ)) : List (Nat × ℚ) :=
  l.foldr insertDesc []

/-- `VectorStore.search`: empty index gives `[]`; otherwise normalise the
query, clamp `k` to the index size, take the `k` positions with the
largest inner products and look up their metadata, skipping entries with
a falsy speaker id.  Note the `deleted` tombstone flag is *not*
consulted — exactly as in the source. -/
def VectorStore.search (vs : VectorStore) (query : List ℚ) (k : Nat) :
    List (String × ℚ × VSMeta) :=
  if vs.vectors.isEmpty then []
  else
    let q := normalizeL2 query
    let kk := min k vs.vectors.length
    let scored := vs.vectors.enum.map (fun p => (p.1, innerProduct p.2 q))
    ((sortDesc scored).take kk).filterMap (fun p =>
      match vs.metadata.get? p.1 with
      | some m => if m.speaker_id == "" then none else some (m.speaker_id, p.2, m)
      | none => none)

/-- Group search hits by speaker, dict insertion order, appending each
similarity to its speaker's list. -/
def groupBySpeaker (results : List (String × ℚ × VSMeta)) :
    List (String × List ℚ) :=
  results.foldl (fun acc r =>
    let rec ins : List (String × List ℚ) → List (String × List ℚ)
      | [] => [(r.1, [r.2.1])]
      | g :: rest => if g.1 == r.1 then (g.1, g.2 ++ [r.2.1]) :: rest
                     else g :: ins rest
    ins acc) []

/-- The `best_speaker`/`best_similarity` fold of `find_matching_speaker`:
start from `(None, 0.0)` (`None` is represented by `""`) and keep the
first group whose mean similarity strictly exceeds the best so far. -/
def bestSpeaker (groups : List (String × List ℚ)) : String × ℚ :=
  groups.foldl (fun best g =>
    let avg := g.2.sum / (g.2.length : ℚ)
    if avg > best.2 then (g.1, avg) else best) ("", 0)

/-- `VectorStore.find_matching_speaker`: the effective threshold is
`similarity_threshold or settings.SPEAKER_SIMILARITY_THRESHOLD`, so a
falsy argument (`0.0`, modelling also `None`) falls back to the
configured `0.85`; search with candidate depth 10, group by speaker,
average, return the best speaker iff its mean similarity reaches the
threshold. -/
def VectorStore.find_matching_speaker (vs : VectorStore) (query : List ℚ)
    (similarity_threshold : ℚ) : Option (String × ℚ) :=
  let threshold :=
    if similarity_threshold = 0 then SPEAKER_SIMILARITY_THRESHOLD
    else similarity_threshold
  let results := vs.search query 10
  if results.isEmpty then none
  else
    let best := bestSpeaker (groupBySpeaker results)
    if best.2 ≥ threshold then some best else none

/-- `VectorStore.remove_speaker`: if the speaker has recorded positions,
mark each of their metadata entries `deleted` and drop the speaker from
`speaker_to_indices`; otherwise do nothing.  The vectors themselves stay
in the index. -/
def VectorStore.remove_speaker (vs : VectorStore) (speaker_id : String) :
    VectorStore :=
  match dictGet vs.speaker_to_indices speaker_id with
  | none => vs
  | some idxs =>
      { vs with
        metadata := vs.metadata.enum.map (fun p =>
          if p.1 ∈ idxs then { p.2 with deleted := true } else p.2)
        speaker_to_indices :=
          vs.speaker_to_indices.filter (fun p => !(p.1 == speaker_id)) }

/-- `VectorStore.get_speaker_embeddings_count`. -/
def VectorStore.get_speaker_embeddings_count (vs : VectorStore)
    (speaker_id : String) : Nat :=
  ((dictGet vs.speaker_to_indices speaker_id).getD []).length

/-- `VectorStore.get_total_embeddings` (`index.ntotal`). -/
def VectorStore.get_total_embeddings (vs : VectorStore) : Nat :=
  vs.vectors.length

/-- A row of the `speakers` table (`database/models.py`, class `Speaker`);
only the columns the verified operations touch. -/
structure SpeakerRow where
  id : String
  name : String
  total_duration_seconds : ℚ
  file_count : Nat
deriving DecidableEq, Repr

/-- A row of the `speaker_audio_files` association table
(`database/models.py`, class `SpeakerAudioFile`). -/
structure LinkRow where
  id : String
  speaker_id : String
  audio_file_id : String
  total_speech_duration : ℚ
  segment_count : Nat
deriving DecidableEq, Repr

/-- A row of the `speaker_segments` table (`database/models.py`, class
`SpeakerSegment`); only the columns the verified operations touch. -/
structure SegmentRow where
  id : String
  audio_file_id : String
  speaker_id : String
deriving DecidableEq, Repr

/-- The relational state the speaker manager operates on: the three tables
as row lists.  `query(...).first()` is `List.find?`, `.count()` a filtered
length; primary keys are assumed unique (they are uuid4 columns). -/
structure DB where
  speakers : List SpeakerRow
  links : List LinkRow
  segments : List SegmentRow
deriving DecidableEq, Repr

def DB.empty : DB := ⟨[], [], []⟩

/-- Combined state of a `SpeakerManager`: its database session and its
vector store. -/
structure MState where
  db : DB
  vs : VectorStore
deriving DecidableEq, Repr

namespace SpeakerManager

/-- `SpeakerManager.get_speaker`: first row with the given id, or none. -/
def get_speaker (db : DB) (speaker_id : String) : Option SpeakerRow :=
  db.speakers.find? (fun r => r.id == speaker_id)

/-- `SpeakerManager.create_speaker`: when no (truthy) name is given, the
default name is `Speaker_` ++ the zero-padded (current row count + 1);
the new row is committed.  The uuid primary key is passed in as `newId`. -/
def create_speaker (db : DB) (name : Option String) (newId : String) :
    SpeakerRow × DB :=
  let nm := match name with
    | some n => if n = "" then "Speaker_" ++ pad3 (db.speakers.length + 1) else n
    | none => "Speaker_" ++ pad3 (db.speakers.length + 1)
  let row : SpeakerRow := ⟨newId, nm, 0, 0⟩
  (row, { db with speakers := db.speakers ++ [row] })

/-- `SpeakerManager.identify_or_create_speaker`: run `find_matching_speaker`
at the configured threshold; on a hit add the embedding under the matched
id and return `(id, false)`; on a miss create a new speaker (default
name), add the embedding under it and return `(id, true)`. -/
def identify_or_create_speaker (s : MState) (embedding : List ℚ)
    (audio_file_id segment_id newId : String) : (String × Bool) × MState :=
  match s.vs.find_matching_speaker embedding SPEAKER_SIMILARITY_THRESHOLD with
  | some (speaker_id, _similarity) =>
      ((speaker_id, false),
        { s with vs := (s.vs.add_embedding embedding speaker_id segment_id audio_file_id).2 })
  | none =>
      let created := create_speaker s.db none newId
      ((created.1.id, true),
        { db := created.2
          vs := (s.vs.add_embedding embedding created.1.id segment_id audio_file_id).2 })

/-- `SpeakerManager.create_speaker_audio_association`: unconditionally
insert a new association row (there is no existence check and no unique
constraint on the (speaker, file) pair).  The uuid primary key is passed
in as `newId`. -/
def create_speaker_audio_association (db : DB)
    (speaker_id audio_file_id : String) (total_duration : ℚ)
    (segment_count : Nat) (newId : String) : LinkRow × DB :=
  let row : LinkRow := ⟨newId, speaker_id, audio_file_id, total_duration, segment_count⟩
  (row, { db with links := db.links ++ [row] })

/-- One iteration of the association loop in `merge_speakers`, processing
the source association row with primary key `aid`: if the target already
has an association for the same audio file, fold the source's duration
and segment count into it and delete the source row; otherwise repoint
the source row to the target.  (When source = target the found
`existing` row is the processed row itself, so its values double and it
is then deleted.) -/
def mergeAssocStep (tgt : String) (links : List LinkRow) (aid : String) :
    List LinkRow :=
  match links.find? (fun l => l.id == aid) with
  | none => links
  | some assoc =>
      match links.find? (fun l =>
          l.speaker_id == tgt && l.audio_file_id == assoc.audio_file_id) with
      | some existing =>
          (links.map (fun l =>
            if l.id == existing.id then
              { l with
                total_speech_duration := l.total_speech_duration + assoc.total_speech_duration
                segment_count := l.segment_count + assoc.segment_count }
            else l)).filter (fun l => !(l.id == aid))
      | none =>
          links.map (fun l => if l.id == aid then { l with speaker_id := tgt } else l)

/-- `SpeakerManager.merge_speakers` (the successful, exception-free path):
fail fast returning `(false, s)` if either speaker is missing; otherwise
repoint the source's segments to the target, run the association loop
over a snapshot of the source's association rows, add the source's
cumulative duration to the target and recompute its `file_count` from
the (now updated) association rows, delete the source row, tombstone the
source's embeddings, and report success. -/
def merge_speakers (s : MState) (source_speaker_id target_speaker_id : String) :
    Bool × MState :=
  match get_speaker s.db source_speaker_id, get_speaker s.db target_speaker_id with
  | some source, some _target =>
      let segs := s.db.segments.map (fun seg =>
        if seg.speaker_id == source_speaker_id then
          { seg with speaker_id := target_speaker_id } else seg)
      let snapshot := (s.db.links.filter
        (fun l => l.speaker_id == source_speaker_id)).map (fun l => l.id)
      let links := snapshot.foldl (mergeAssocStep target_speaker_id) s.db.links
      let cnt := (links.filter (fun l => l.speaker_id == target_speaker_id)).length
      let speakers := (s.db.speakers.map (fun r =>
        if r.id == target_speaker_id then
          { r with
            total_duration_seconds := r.total_duration_seconds + source.total_duration_seconds
            file_count := cnt }
        else r)).filter (fun r => !(r.id == source_speaker_id))
      (true,
        { db := { speakers := speakers, links := links, segments := segs }
          vs := s.vs.remove_speaker source_speaker_id })
  | _, _ => (false, s)

/-- `SpeakerManager.delete_speaker` (the successful, exception-free path):
fail returning `(false, s)` if the speaker is missing; otherwise delete
its association rows and segments, delete the speaker row, tombstone its
embeddings, and report success. -/
def delete_speaker (s : MState) (speaker_id : String) : Bool × MState :=
  match get_speaker s.db speaker_id with
  | none => (false, s)
  | some _ =>
      (true,
        { db :=
            { speakers := s.db.speakers.filter (fun r => !(r.id == speaker_id))
              links := s.db.links.filter (fun l => !(l.speaker_id == speaker_id))
              segments := s.db.segments.filter (fun g => !(g.speaker_id == speaker_id)) }
          vs := s.vs.remove_speaker speaker_id })

/-- Where, relative to the vector-store mutation, an injected exception
strikes inside the `try` block of `merge_speakers` / `delete_speaker`:

* `dbStep` — a failure in one of the database operations, which all
  precede the vector-store calls;
* `atSave` — `VectorStore.save` raises (it re-raises on write errors)
  after `remove_speaker` has already mutated the in-memory store;
* `atCommit` — the final `db.commit()` raises after the vector store was
  mutated and saved. -/
inductive OpFault
  | dbStep
  | atSave
  | atCommit
deriving DecidableEq, Repr

/-- `merge_speakers` under fault injection.  The `except` handler calls
`db.rollback()`, which reverts the uncommitted session changes (there is
no intermediate commit inside the `try`), and returns `False`; nothing
reverts `remove_speaker`'s in-memory tombstoning, and for `atCommit` the
mutated store has additionally been written to disk by `save`. -/
def merge_speakers_withFault (s : MState)
    (source_speaker_id target_speaker_id : String) (fault : Option OpFault) :
    Bool × MState :=
  match fault with
  | none => merge_speakers s source_speaker_id target_speaker_id
  | some f =>
      match get_speaker s.db source_speaker_id, get_speaker s.db target_speaker_id with
      | some _, some _ =>
          match f with
          | .dbStep => (false, s)
          | .atSave => (false, { s with vs := s.vs.remove_speaker source_speaker_id })
          | .atCommit => (false, { s with vs := s.vs.remove_speaker source_speaker_id })
      | _, _ => (false, s)

/-- `delete_speaker` under fault injection, with the same fault model as
`merge_speakers_withFault`. -/
def delete_speaker_withFault (s : MState) (speaker_id : String)
    (fault : Option OpFault) : Bool × MState :=
  match fault with
  | none => delete_speaker s speaker_id
  | some f =>
      match get_speaker s.db speaker_id with
      | none => (false, s)
      | some _ =>
          match f with
          | .dbStep => (false, s)
          | .atSave => (false, { s with vs := s.vs.remove_speaker speaker_id })
          | .atCommit => (false, { s with vs := s.vs.remove_speaker speaker_id })

end SpeakerManager

/-! ## Pipeline orchestrator (`tasks/process_audio.py`)

The orchestrator is modelled at the granularity of its job-milestone
database commits: each element of `orchSteps` is the state change
committed at one job-progress commit of `process_audio_file` /
`_process_with_traditional_pipeline`, in program order, with the
artifact rows a stage persists (which the code commits inside the stage,
just before its milestone commit) folded into that stage's milestone.
An injected exception between milestones reaches the single top-level
`except` handler, which mutates only the job/recording failure fields
and commits; it performs no rollback, so everything committed before the
fault stays persisted. -/

/-- `ProcessingStatus` (`database/models.py`). -/
inductive PStatus
  | queued
  | processing
  | completed
  | failed
deriving DecidableEq, Repr

/-- The observable (committed) state the orchestrator maintains: the job
row, the recording (audio-file) row, and the counts of artifacts this
run has persisted so far (speaker rows created, embedding records added
to the index, segment rows, association rows). -/
structure OrchState where
  jobStatus : PStatus
  progress : Nat
  currentStep : String
  jobError : Option String
  completedAt : Bool
  resultSet : Bool
  audioStatus : PStatus
  audioError : Option String
  speakers : Nat
  embeddings : Nat
  segments : Nat
  links : Nat
deriving DecidableEq, Repr

/-- State of a job row at submission time (`ProcessingJob` defaults:
status QUEUED, progress 0, no error), before the worker touches it. -/
def initialJob : OrchState :=
  { jobStatus := .queued, progress := 0, currentStep := "", jobError := none
    completedAt := false, resultSet := false, audioStatus := .queued
    audioError := none, speakers := 0, embeddings := 0, segments := 0, links := 0 }

/-- The successive committed state changes of one traditional-pipeline
invocation, in program order (`process_audio_file` lines 62-68 then
`_process_with_traditional_pipeline`), for a recording whose diarization
yields `nSpk` distinct temporary labels of which `nNew` are unmatched
(each label triggers exactly one `identify_or_create_speaker`, hence one
embedding record, and the unmatched ones one speaker row each) and whose
transcription yields `nSeg` segments. -/
def orchSteps (nSpk nNew nSeg : Nat) : List (OrchState → OrchState) :=
  [ fun s => { s with jobStatus := .processing, progress := 0,
                      currentStep := "initialization", audioStatus := .processing },
    fun s => { s with currentStep := "diarization", progress := 5 },
    fun s => { s with progress := 15 },
    fun s => { s with progress := 25 },
    fun s => { s with speakers := s.speakers + nNew,
                      embeddings := s.embeddings + nSpk, progress := 33 },
    fun s => { s with currentStep := "transcription", progress := 35 },
    fun s => { s with progress := 60 },
    fun s => { s with segments := s.segments + nSeg },
    fun s => { s with progress := 66 },
    fun s => { s with currentStep := "insights", progress := 70 },
    fun s => { s with progress := 80 },
    fun s => { s with links := s.links + nSpk, progress := 85 },
    fun s => { s with progress := 95 },
    fun s => { s with jobStatus := .completed, currentStep := "completed",
                      progress := 100, completedAt := true, resultSet := true,
                      audioStatus := .completed } ]

/-- The committed state after the first `j` commits of a run starting from
job state `s0` (the existing job row is reused and re-entered whatever
its status, `process_audio_file` lines 49-68). -/
def runPrefix (s0 : OrchState) (nSpk nNew nSeg j : Nat) : OrchState :=
  ((orchSteps nSpk nNew nSeg).take j).foldl (fun s f => f s) s0

/-- The single top-level `except` handler (`process_audio_file` lines
89-108): set the job FAILED with the error description and a completion
timestamp, set the recording FAILED with the same message, commit.  It
touches nothing else — in particular no artifact is rolled back. -/
def catchFail (msg : String) (s : OrchState) : OrchState :=
  { s with jobStatus := .failed, jobError := some msg, completedAt := true,
           audioStatus := .failed, audioError := some msg }

/-- A run that raises between commit `j-1` and commit `j` with error
description `msg`: the final committed state. -/
def runWithFault (s0 : OrchState) (nSpk nNew nSeg j : Nat) (msg : String) :
    OrchState :=
  catchFail msg (runPrefix s0 nSpk nNew nSeg j)

/-- The value returned by `process_audio_file` when the handler catches an
error: `{"success": False, ..., "error": str(e)}`. -/
def failResult (msg : String) : Bool × Option String := (false, some msg)

/-- The committed (status, progress) trace an external poller observes for
one invocation: the initial row state, then each commit; a fault inside
pipeline stage `j` (that is, after the initialization commit `c0` and
before commit `c(j+1)`; an error before `c0` is the NotFound path of
§7, which aborts without touching the job) truncates after commit
`c(j)` and appends the handler's FAILED commit. -/
def jobTrace (s0 : OrchState) (nSpk nNew nSeg : Nat) (fault : Option (Fin 13)) :
    List (PStatus × Nat) :=
  let commits := (orchSteps nSpk nNew nSeg).scanl (fun s f => f s) s0
  match fault with
  | none => commits.map (fun s => (s.jobStatus, s.progress))
  | some j =>
      (commits.take (j.val + 2)).map (fun s => (s.jobStatus, s.progress)) ++
        [((catchFail "boom" (runPrefix s0 nSpk nNew nSeg (j.val + 1))).jobStatus,
          (catchFail "boom" (runPrefix s0 nSpk nNew nSeg (j.val + 1))).progress)]

/-- The transitions the specification permits on a polled job row:
QUEUED may go to PROCESSING; PROCESSING may stay PROCESSING with
non-decreasing progress or end in COMPLETED/FAILED; COMPLETED and FAILED
are terminal. -/
def specStep : PStatus × Nat → PStatus × Nat → Bool
  | (.queued, _), (.processing, _) => true
  | (.processing, p), (.processing, q) => p ≤ q
  | (.processing, _), (.completed, _) => true
  | (.processing, _), (.failed, _) => true
  | _, _ => false

/-! ## General lemmas about `find?` over filtered and mapped row lists -/

lemma find?_filter_of_imp {α : Type} (keep q : α → Bool)
    (h : ∀ a, q a = true → keep a = true) :
    ∀ l : List α, (l.filter keep).find? q = l.find? q := by
  intro l
  induction l with
  | nil => rfl
  | cons a t ih =>
      by_cases hq : q a = true
      · have hk := h a hq
        simp [List.filter_cons, hk, List.find?_cons, hq]
      · have hq' : q a = false := by
          cases hqa : q a
          · rfl
          · exact absurd hqa hq
        cases hk : keep a
        · simp [List.filter_cons, hk, List.find?_cons, hq', ih]
        · simp [List.filter_cons, hk, List.find?_cons, hq', ih]

lemma find?_filter_self_none {α : Type} (keep q : α → Bool)
    (h : ∀ a, q a = true → keep a = false) :
    ∀ l : List α, (l.filter keep).find? q = none := by
  intro l
  induction l with
  | nil => rfl
  | cons a t ih =>
      cases hk : keep a
      · simp [List.filter_cons, hk, ih]
      · have hq : q a = false := by
          cases hqa : q a
          · rfl
          · exact absurd hk (by simp [h a hqa])
        simp [List.filter_cons, hk, List.find?_cons, hq, ih]

lemma find?_map_of_pred {α : Type} (u : α → α) (q : α → Bool)
    (h : ∀ a, q (u a) = q a) :
    ∀ l : List α, (l.map u).find? q = (l.find? q).map u := by
  intro l
  induction l with
  | nil => rfl
  | cons a t ih =>
      by_cases hq : q a = true
      · simp [List.find?_cons, hq, h a]
      · have hq' : q a = false := by
          cases hqa : q a
          · rfl
          · exact absurd hqa hq
        simp [List.find?_cons, hq', h a, ih]

/-! ## C1 — identify-or-create -/

/-- C1: `identify_or_create_speaker` consults `find_matching_speaker`; on a
hit it returns the matched identity with `isNew = false`, leaves the
speaker table unchanged and appends one embedding record under the
matched identity; on a miss it returns `isNew = true` and a freshly
created identity whose auto-generated name is `Speaker_` followed by the
zero-padded (current speaker count + 1), appending one embedding record
under the new identity.  In both cases exactly one embedding record is
added to the index. -/
theorem identify_or_create_speaker_spec (s : MState) (embedding : List ℚ)
    (audio_file_id segment_id newId : String) :
    (SpeakerManager.identify_or_create_speaker s embedding audio_file_id
        segment_id newId).2.vs.metadata.length = s.vs.metadata.length + 1 ∧
    (∀ ms sim,
      s.vs.find_matching_speaker embedding SPEAKER_SIMILARITY_THRESHOLD = some (ms, sim) →
      (SpeakerManager.identify_or_create_speaker s embedding audio_file_id
          segment_id newId).1 = (ms, false) ∧
      (SpeakerManager.identify_or_create_speaker s embedding audio_file_id
          segment_id newId).2.db = s.db ∧
      (SpeakerManager.identify_or_create_speaker s embedding audio_file_id
          segment_id newId).2.vs.metadata =
        s.vs.metadata ++ [⟨ms, segment_id, audio_file_id, false⟩]) ∧
    (s.vs.find_matching_speaker embedding SPEAKER_SIMILARITY_THRESHOLD = none →
      (SpeakerManager.identify_or_create_speaker s embedding audio_file_id
          segment_id newId).1 = (newId, true) ∧
      (SpeakerManager.identify_or_create_speaker s embedding audio_file_id
          segment_id newId).2.db.speakers =
        s.db.speakers ++
          [⟨newId, "Speaker_" ++ pad3 (s.db.speakers.length + 1), 0, 0⟩] ∧
      (SpeakerManager.identify_or_create_speaker s embedding audio_file_id
          segment_id newId).2.vs.metadata =
        s.vs.metadata ++ [⟨newId, segment_id, audio_file_id, false⟩]) := by
  cases h : s.vs.find_matching_speaker embedding SPEAKER_SIMILARITY_THRESHOLD with
  | some p =>
      obtain ⟨ms0, sim0⟩ := p
      refine ⟨?_, ?_, ?_⟩
      · simp [SpeakerManager.identify_or_create_speaker, h, VectorStore.add_embedding]
      · intro ms sim hms
        have hp : ms0 = ms ∧ sim0 = sim := by simpa using hms
        obtain ⟨rfl, rfl⟩ := hp
        refine ⟨?_, ?_, ?_⟩ <;>
          simp [SpeakerManager.identify_or_create_speaker, h, VectorStore.add_embedding]
      · intro hnone
        exact absurd hnone (by simp)
  | none =>
      refine ⟨?_, ?_, ?_⟩
      · simp [SpeakerManager.identify_or_create_speaker, h, VectorStore.add_embedding,
          SpeakerManager.create_speaker]
      · intro ms sim hms
        exact absurd hms (by simp)
      · intro _
        refine ⟨?_, ?_, ?_⟩ <;>
          simp [SpeakerManager.identify_or_create_speaker, h, VectorStore.add_embedding,
            SpeakerManager.create_speaker]

/-- Witness for C1 at a concrete input: on the empty state the lookup
misses, one speaker named `Speaker_001` is created with `isNew = true`,
and exactly one embedding record is stored under it. -/
theorem identify_or_create_speaker_spec_witness :
    (SpeakerManager.identify_or_create_speaker ⟨DB.empty, VectorStore.empty⟩
        [1, 0] "f1" "s1" "id-a").2.vs.metadata.length = 0 + 1 ∧
    (SpeakerManager.identify_or_create_speaker ⟨DB.empty, VectorStore.empty⟩
        [1, 0] "f1" "s1" "id-a").1 = ("id-a", true) ∧
    (SpeakerManager.identify_or_create_speaker ⟨DB.empty, VectorStore.empty⟩
        [1, 0] "f1" "s1" "id-a").2.db.speakers =
      [⟨"id-a", "Speaker_001", 0, 0⟩] := by
  have h := identify_or_create_speaker_spec ⟨DB.empty, VectorStore.empty⟩
    [1, 0] "f1" "s1" "id-a"
  have hnone : (VectorStore.empty).find_matching_speaker [1, 0]
      SPEAKER_SIMILARITY_THRESHOLD = none := by
    simp [VectorStore.find_matching_speaker, VectorStore.search, VectorStore.empty]
  obtain ⟨hlen, -, hmiss⟩ := h
  obtain ⟨h1, h2, -⟩ := hmiss hnone
  refine ⟨?_, h1, ?_⟩
  · simpa [VectorStore.empty] using hlen
  · simpa [DB.empty, pad3] using h2

/-! ## C2 — merge of two distinct identities -/

lemma mergeUpd_preserves_id (tgt : String) (d : ℚ) (c : Nat) (a : SpeakerRow) :
    ((if a.id == tgt then
        { a with total_duration_seconds := a.total_duration_seconds + d, file_count := c }
      else a).id == tgt) = (a.id == tgt) := by
  by_cases h : (a.id == tgt) = true
  · simp [h]
  · simp [h]

/-- C2 (amended with `src ≠ tgt`; see `merge_self_not_conserving` for why
the distinctness hypothesis is forced): `merge_speakers` fails fast,
returning failure and leaving the state untouched, when either identity
is missing; when both exist (and are distinct) it succeeds, the
target's cumulative duration afterwards is the sum of both prior
durations, the target's distinct-recording count is recomputed as the
number of association rows now pointing at the target, every segment
formerly owned by the source is repointed to the target, and the source
identity is no longer retrievable. -/
theorem merge_speakers_distinct_spec (s : MState) (src tgt : String)
    (hneq : src ≠ tgt) :
    ((SpeakerManager.get_speaker s.db src = none ∨
      SpeakerManager.get_speaker s.db tgt = none) →
      SpeakerManager.merge_speakers s src tgt = (false, s)) ∧
    (∀ srcRow tgtRow,
      SpeakerManager.get_speaker s.db src = some srcRow →
      SpeakerManager.get_speaker s.db tgt = some tgtRow →
      (SpeakerManager.merge_speakers s src tgt).1 = true ∧
      SpeakerManager.get_speaker (SpeakerManager.merge_speakers s src tgt).2.db tgt =
        some { tgtRow with
          total_duration_seconds :=
            tgtRow.total_duration_seconds + srcRow.total_duration_seconds
          file_count :=
            ((SpeakerManager.merge_speakers s src tgt).2.db.links.filter
              (fun l => l.speaker_id == tgt)).length } ∧
      (SpeakerManager.merge_speakers s src tgt).2.db.segments =
        s.db.segments.map (fun seg =>
          if seg.speaker_id == src then { seg with speaker_id := tgt } else seg) ∧
      SpeakerManager.get_speaker
        (SpeakerManager.merge_speakers s src tgt).2.db src = none) := by
  constructor
  · intro hmiss
    rcases hmiss with hm | hm
    · simp [SpeakerManager.merge_speakers, hm]
    · cases hsrc : SpeakerManager.get_speaker s.db src with
      | none => simp [SpeakerManager.merge_speakers, hsrc]
      | some r => simp [SpeakerManager.merge_speakers, hsrc, hm]
  intro srcRow tgtRow hs ht
  have hs' : s.db.speakers.find? (fun r => r.id == src) = some srcRow := hs
  have ht' : s.db.speakers.find? (fun r => r.id == tgt) = some tgtRow := ht
  have htgtq0 := List.find?_some ht'
  have htid : tgtRow.id = tgt := by simpa using htgtq0
  simp only [SpeakerManager.merge_speakers, SpeakerManager.get_speaker, hs', ht']
  refine ⟨by trivial, ?_, by trivial, ?_⟩
  · rw [find?_filter_of_imp _ _ ?keepimp, find?_map_of_pred _ _ ?predok, ht']
    case keepimp =>
      intro a ha
      have : a.id = tgt := by simpa using ha
      simp [this, Ne.symm hneq]
    case predok =>
      intro a
      exact mergeUpd_preserves_id tgt srcRow.total_duration_seconds _ a
    simp [htid]
  · refine find?_filter_self_none _ _ ?_ _
    intro x hx
    show (!(x.id == src)) = false
    rw [hx]
    rfl

/-- Counterexample to C2 as frozen (no distinctness requirement): with a
single existing identity `a` of duration 30, `merge(a, a)` reports
success, yet afterwards `a` is not retrievable at all — in particular no
retrievable target row carries duration 30 + 30. -/
def selfMergeState : MState :=
  ⟨⟨[⟨"a", "Alice", 30, 1⟩], [⟨"l1", "a", "f1", 30, 3⟩], [⟨"g1", "f1", "a"⟩]⟩,
    (VectorStore.empty.add_embedding [1, 0] "a" "s1" "f1").2⟩

/-- C2 counterexample: both arguments exist (they are the same identity),
the merge reports success, but the merged "target" has been destroyed
rather than keeping the summed duration. -/
theorem merge_self_not_conserving :
    SpeakerManager.get_speaker selfMergeState.db "a" = some ⟨"a", "Alice", 30, 1⟩ ∧
    (SpeakerManager.merge_speakers selfMergeState "a" "a").1 = true ∧
    SpeakerManager.get_speaker
      (SpeakerManager.merge_speakers selfMergeState "a" "a").2.db "a" = none := by
  refine ⟨rfl, ?_, ?_⟩ <;>
    norm_num [selfMergeState, SpeakerManager.merge_speakers, SpeakerManager.get_speaker,
      SpeakerManager.mergeAssocStep, VectorStore.empty, VectorStore.add_embedding,
      VectorStore.remove_speaker, dictAppend, dictGet, normalizeL2, innerProduct, ratSqrt,
      List.find?_cons]

/-- Witness for C2 at the spec's own scenario (§8): merging identity `a`
(duration 50, 1 recording) into identity `b` (duration 30, 1 different
recording) yields `b` with duration 80 and 2 recordings, and `a` is
gone; and a merge of `a` into the missing identity `zz` fails fast,
leaving the state untouched. -/
def mergeScenarioState : MState :=
  ⟨⟨[⟨"a", "Speaker_001", 50, 1⟩, ⟨"b", "Speaker_002", 30, 1⟩],
    [⟨"l1", "a", "f1", 50, 5⟩, ⟨"l2", "b", "f2", 30, 3⟩],
    [⟨"g1", "f1", "a"⟩, ⟨"g2", "f2", "b"⟩]⟩,
    VectorStore.empty⟩

theorem merge_speakers_distinct_spec_witness :
    SpeakerManager.merge_speakers mergeScenarioState "a" "zz" =
      (false, mergeScenarioState) ∧
    (SpeakerManager.merge_speakers mergeScenarioState "a" "b").1 = true ∧
    SpeakerManager.get_speaker
      (SpeakerManager.merge_speakers mergeScenarioState "a" "b").2.db "b" =
      some ⟨"b", "Speaker_002", 80, 2⟩ ∧
    SpeakerManager.get_speaker
      (SpeakerManager.merge_speakers mergeScenarioState "a" "b").2.db "a" = none := by
  have hmain := merge_speakers_distinct_spec mergeScenarioState "a" "b" (by decide)
  have hfail := merge_speakers_distinct_spec mergeScenarioState "a" "zz" (by decide)
  obtain ⟨h1, h2, -, h4⟩ := hmain.2 ⟨"a", "Speaker_001", 50, 1⟩
    ⟨"b", "Speaker_002", 30, 1⟩ (by rfl) (by rfl)
  refine ⟨hfail.1 (Or.inr (by rfl)), h1, ?_, h4⟩
  rw [h2]
  norm_num [Option.some_inj, SpeakerRow.mk.injEq]
  decide

/-! ## C9 — self-merge destroys the identity -/

/-- C9: for an existing identity `a`, `merge(a, a)` reports success, after
which the identity row is gone (its cumulative duration was doubled on
the in-memory row, which is then deleted), its segments still carry the
same (now dangling) identity reference, and every embedding position
recorded for it is tombstoned — a self-merge destroys the identity. -/
theorem merge_self_destroys (s : MState) (a : String) (row : SpeakerRow)
    (h : SpeakerManager.get_speaker s.db a = some row) :
    (SpeakerManager.merge_speakers s a a).1 = true ∧
    SpeakerManager.get_speaker (SpeakerManager.merge_speakers s a a).2.db a = none ∧
    (SpeakerManager.merge_speakers s a a).2.db.segments = s.db.segments ∧
    (SpeakerManager.merge_speakers s a a).2.vs = s.vs.remove_speaker a ∧
    (∀ i, i ∈ (dictGet s.vs.speaker_to_indices a).getD [] →
      i < s.vs.metadata.length →
      ((SpeakerManager.merge_speakers s a a).2.vs.metadata[i]?).map
        VSMeta.deleted = some true) := by
  have h' : s.db.speakers.find? (fun r => r.id == a) = some row := h
  refine ⟨?_, ?_, ?_, ?_, ?_⟩
  · simp [SpeakerManager.merge_speakers, SpeakerManager.get_speaker, h']
  · simp only [SpeakerManager.merge_speakers, SpeakerManager.get_speaker, h']
    refine find?_filter_self_none _ _ ?_ _
    intro x hx
    show (!(x.id == a)) = false
    rw [hx]
    rfl
  · simp only [SpeakerManager.merge_speakers, SpeakerManager.get_speaker, h']
    refine List.map_congr_left ?_ |>.trans (List.map_id _)
    intro seg _
    by_cases hsg : (seg.speaker_id == a) = true
    · have : seg.speaker_id = a := by simpa using hsg
      simp [hsg, ← this]
    · simp [hsg]
  · simp [SpeakerManager.merge_speakers, SpeakerManager.get_speaker, h']
  · intro i hi hlen
    cases hd : dictGet s.vs.speaker_to_indices a with
    | none => rw [hd] at hi; simp at hi
    | some idxs =>
        rw [hd] at hi
        simp only [SpeakerManager.merge_speakers, SpeakerManager.get_speaker, h',
          VectorStore.remove_speaker, hd]
        simp only [Option.getD_some] at hi
        rw [List.getElem?_map, List.getElem?_enum]
        cases hm : s.vs.metadata[i]? with
        | none =>
            exact absurd (List.getElem?_eq_none_iff.mp hm) (by omega)
        | some m => simp [hi]

/-- Witness for C9 on a concrete state with one identity, one segment and
one stored embedding. -/
theorem merge_self_destroys_witness :
    (SpeakerManager.merge_speakers selfMergeState "a" "a").1 = true ∧
    SpeakerManager.get_speaker
      (SpeakerManager.merge_speakers selfMergeState "a" "a").2.db "a" = none ∧
    ((SpeakerManager.merge_speakers selfMergeState "a" "a").2.vs.metadata[0]?).map
      VSMeta.deleted = some true := by
  have h := merge_self_destroys selfMergeState "a" ⟨"a", "Alice", 30, 1⟩ (by rfl)
  obtain ⟨h1, h2, -, -, h5⟩ := h
  refine ⟨h1, h2, ?_⟩
  refine h5 0 ?_ ?_
  · norm_num [selfMergeState, VectorStore.add_embedding, VectorStore.empty, dictAppend, dictGet]
  · norm_num [selfMergeState, VectorStore.add_embedding, VectorStore.empty]

/-! ## C3 — failure atomicity of merge and delete -/

/-- C3 (amended): on any mid-sequence failure, `merge_speakers` and
`delete_speaker` report failure and the `except` handler's
`db.rollback()` restores the database exactly; when the failure strikes
before the vector-store calls the vector store is untouched as well —
but (see `merge_fault_leaves_tombstones`) a failure after
`remove_speaker` does *not* revert the vector-store tombstoning. -/
theorem merge_delete_fault_db_rollback (s : MState) (src tgt did : String) :
    (∀ f : SpeakerManager.OpFault,
      (SpeakerManager.merge_speakers_withFault s src tgt (some f)).1 = false ∧
      (SpeakerManager.merge_speakers_withFault s src tgt (some f)).2.db = s.db) ∧
    (SpeakerManager.merge_speakers_withFault s src tgt
      (some SpeakerManager.OpFault.dbStep)).2.vs = s.vs ∧
    (∀ f : SpeakerManager.OpFault,
      (SpeakerManager.delete_speaker_withFault s did (some f)).1 = false ∧
      (SpeakerManager.delete_speaker_withFault s did (some f)).2.db = s.db) ∧
    (SpeakerManager.delete_speaker_withFault s did
      (some SpeakerManager.OpFault.dbStep)).2.vs = s.vs := by
  refine ⟨?_, ?_, ?_, ?_⟩
  · intro f
    cases hsrc : SpeakerManager.get_speaker s.db src with
    | none => cases f <;> simp [SpeakerManager.merge_speakers_withFault, hsrc]
    | some r1 =>
        cases htgt : SpeakerManager.get_speaker s.db tgt with
        | none => cases f <;> simp [SpeakerManager.merge_speakers_withFault, hsrc, htgt]
        | some r2 => cases f <;> simp [SpeakerManager.merge_speakers_withFault, hsrc, htgt]
  · cases hsrc : SpeakerManager.get_speaker s.db src with
    | none => simp [SpeakerManager.merge_speakers_withFault, hsrc]
    | some r1 =>
        cases htgt : SpeakerManager.get_speaker s.db tgt with
        | none => simp [SpeakerManager.merge_speakers_withFault, hsrc, htgt]
        | some r2 => simp [SpeakerManager.merge_speakers_withFault, hsrc, htgt]
  · intro f
    cases hdel : SpeakerManager.get_speaker s.db did with
    | none => cases f <;> simp [SpeakerManager.delete_speaker_withFault, hdel]
    | some r => cases f <;> simp [SpeakerManager.delete_speaker_withFault, hdel]
  · cases hdel : SpeakerManager.get_speaker s.db did with
    | none => simp [SpeakerManager.delete_speaker_withFault, hdel]
    | some r => simp [SpeakerManager.delete_speaker_withFault, hdel]

/-- Concrete two-speaker state with one stored embedding for speaker `a`,
used to exhibit the non-atomicity of the vector-store side. -/
def faultState : MState :=
  ⟨⟨[⟨"a", "Alice", 30, 1⟩, ⟨"b", "Bob", 20, 1⟩],
    [⟨"l1", "a", "f1", 30, 3⟩], [⟨"g1", "f1", "a"⟩]⟩,
    (VectorStore.empty.add_embedding [1, 0] "a" "s1" "f1").2⟩

/-- C3 counterexample: a failure at the final commit of
`merge_speakers(a, b)` leaves the database rolled back but the embedding
of `a` tombstoned in the vector index — the pre-call state is *not*
restored, contradicting the claimed all-or-nothing atomicity. -/
theorem merge_fault_leaves_tombstones :
    (SpeakerManager.merge_speakers_withFault faultState "a" "b"
      (some SpeakerManager.OpFault.atCommit)).1 = false ∧
    (SpeakerManager.merge_speakers_withFault faultState "a" "b"
      (some SpeakerManager.OpFault.atCommit)).2.db = faultState.db ∧
    ((SpeakerManager.merge_speakers_withFault faultState "a" "b"
      (some SpeakerManager.OpFault.atCommit)).2.vs.metadata[0]?).map
        VSMeta.deleted = some true ∧
    ((faultState.vs.metadata[0]?).map VSMeta.deleted = some false) := by
  exact ⟨rfl, rfl, by decide, by decide⟩

/-! ## C4 — delete is not total: tombstoned embeddings stay matchable -/

/-- Concrete state with one identity `a`, one link, one segment and one
stored embedding of `a`. -/
def deleteState : MState :=
  ⟨⟨[⟨"a", "Alice", 30, 1⟩], [⟨"l1", "a", "f1", 30, 3⟩], [⟨"g1", "f1", "a"⟩]⟩,
    (VectorStore.empty.add_embedding [1, 0] "a" "s1" "f1").2⟩

/-- C4 (code bug): `delete_speaker` succeeds and removes every segment
row, link row and the speaker row for `a`, and tombstones its embedding
— yet `search`/`find_matching_speaker` never consult the `deleted` flag,
so a query still matches the deleted identity `a` (similarity 1) above
the 0.9 threshold, contradicting "search and findMatch never return id
afterwards". -/
theorem delete_leaves_speaker_matchable :
    (SpeakerManager.delete_speaker deleteState "a").1 = true ∧
    SpeakerManager.get_speaker
      (SpeakerManager.delete_speaker deleteState "a").2.db "a" = none ∧
    (SpeakerManager.delete_speaker deleteState "a").2.db.links.filter
      (fun l => l.speaker_id == "a") = [] ∧
    (SpeakerManager.delete_speaker deleteState "a").2.db.segments.filter
      (fun g => g.speaker_id == "a") = [] ∧
    ((SpeakerManager.delete_speaker deleteState "a").2.vs.metadata[0]?).map
      VSMeta.deleted = some true ∧
    (SpeakerManager.delete_speaker deleteState "a").2.vs.find_matching_speaker
      [1, 0] (9 / 10) = some ("a", 1) := by
  refine ⟨rfl, ?_, ?_, ?_, ?_, ?_⟩ <;>
    norm_num +decide [deleteState, SpeakerManager.delete_speaker,
      SpeakerManager.get_speaker, VectorStore.remove_speaker, VectorStore.empty,
      VectorStore.add_embedding, VectorStore.find_matching_speaker, VectorStore.search,
      dictGet, dictAppend, normalizeL2, innerProduct, ratSqrt, sortDesc, insertDesc,
      groupBySpeaker, groupBySpeaker.ins, bestSpeaker, List.enum, List.enumFrom,
      Nat.sqrt, List.filterMap_cons, List.filterMap_nil, List.getElem?_cons_zero,
      List.getElem?_cons_succ, List.getElem?_nil, List.find?_cons]

/-! ## C5 — threshold monotonicity of `find_matching_speaker` -/

/-- C5 (amended with `t1 ≠ 0`; see `find_matching_zero_threshold_not_monotonic`
for why the exclusion is forced): for a fixed store and query, and
thresholds `t1 ≤ t2` with `t1` nonzero, a match at `t2` implies a match
at `t1`. -/
theorem find_matching_speaker_threshold_monotonic (vs : VectorStore)
    (q : List ℚ) (t1 t2 : ℚ) (h1 : t1 ≠ 0) (h12 : t1 ≤ t2)
    (h : (vs.find_matching_speaker q t2).isSome = true) :
    (vs.find_matching_speaker q t1).isSome = true := by
  by_cases hemp : (vs.search q 10).isEmpty
  · simp [VectorStore.find_matching_speaker, hemp] at h
  · simp only [VectorStore.find_matching_speaker, hemp, Bool.false_eq_true,
      if_false] at h ⊢
    by_cases hb2 : (bestSpeaker (groupBySpeaker (vs.search q 10))).2 ≥
        (if t2 = 0 then SPEAKER_SIMILARITY_THRESHOLD else t2)
    · have hb1 : (bestSpeaker (groupBySpeaker (vs.search q 10))).2 ≥
          (if t1 = 0 then SPEAKER_SIMILARITY_THRESHOLD else t1) := by
        rw [if_neg h1]
        by_cases ht2 : t2 = 0
        · rw [if_pos ht2] at hb2
          have hthr : (0 : ℚ) ≤ SPEAKER_SIMILARITY_THRESHOLD := by
            norm_num [SPEAKER_SIMILARITY_THRESHOLD]
          have ht1 : t1 ≤ 0 := ht2 ▸ h12
          linarith
        · rw [if_neg ht2] at hb2
          linarith
      simp [hb1]
    · simp [hb2] at h

/-- A store holding one embedding of speaker `a` whose similarity to the
query `[1, 0]` is exactly 3/5. -/
def thresholdProbeStore : VectorStore :=
  (VectorStore.empty.add_embedding [3/5, 4/5] "a" "s1" "f1").2

/-- C5 counterexample: the thresholds 0 ≤ 2/5 are ordered, the query
matches at threshold 2/5, yet at the *lower* threshold 0 there is no
match — because `similarity_threshold or settings.SPEAKER_SIMILARITY_THRESHOLD`
treats the falsy 0.0 as "use the 0.85 default". -/
theorem find_matching_zero_threshold_not_monotonic :
    (0 : ℚ) ≤ 2/5 ∧
    (thresholdProbeStore.find_matching_speaker [1, 0] (2/5)).isSome = true ∧
    (thresholdProbeStore.find_matching_speaker [1, 0] 0).isSome = false := by
  refine ⟨by norm_num, ?_, ?_⟩ <;>
    norm_num +decide [thresholdProbeStore, VectorStore.empty, VectorStore.add_embedding,
      VectorStore.find_matching_speaker, VectorStore.search, normalizeL2, innerProduct,
      ratSqrt, sortDesc, insertDesc, groupBySpeaker, groupBySpeaker.ins, bestSpeaker,
      dictAppend, SPEAKER_SIMILARITY_THRESHOLD, List.enum, List.enumFrom, Nat.sqrt,
      List.filterMap_cons, List.filterMap_nil, List.getElem?_cons_zero,
      List.getElem?_cons_succ, List.getElem?_nil]

/-- Witness for C5 at concrete nonzero thresholds 1/2 ≤ 3/5: the match at
3/5 implies the match at 1/2. -/
theorem find_matching_speaker_threshold_monotonic_witness :
    (thresholdProbeStore.find_matching_speaker [1, 0] (1/2)).isSome = true := by
  refine find_matching_speaker_threshold_monotonic thresholdProbeStore [1, 0]
    (1/2) (3/5) (by norm_num) (by norm_num) ?_
  norm_num +decide [thresholdProbeStore, VectorStore.empty, VectorStore.add_embedding,
    VectorStore.find_matching_speaker, VectorStore.search, normalizeL2, innerProduct,
    ratSqrt, sortDesc, insertDesc, groupBySpeaker, groupBySpeaker.ins, bestSpeaker,
    dictAppend, SPEAKER_SIMILARITY_THRESHOLD, List.enum, List.enumFrom, Nat.sqrt,
    List.filterMap_cons, List.filterMap_nil, List.getElem?_cons_zero,
    List.getElem?_cons_succ, List.getElem?_nil]

/-! ## C6 — job status machine and progress monotonicity -/

/-- C6 (amended to a single task invocation on a fresh job; see
`resubmission_leaves_terminal_status` for the re-submission exception):
whatever the diarization/identification/segment counts and wherever a
fault strikes, the committed job trace of one invocation starting from a
QUEUED job steps only along QUEUED→PROCESSING→{COMPLETED, FAILED} with
non-decreasing progress while PROCESSING, and never leaves a terminal
status within that invocation. -/
theorem job_trace_follows_state_machine (nSpk nNew nSeg : Nat)
    (fault : Option (Fin 13)) :
    List.Chain' (fun a b => specStep a b = true)
      (jobTrace initialJob nSpk nNew nSeg fault) := by
  rcases fault with - | j
  · simp only [jobTrace, orchSteps, initialJob, List.scanl, List.map]
    norm_num [specStep]
  · fin_cases j <;>
      · simp only [jobTrace, orchSteps, initialJob, runPrefix, catchFail,
          List.scanl, List.map, List.take, List.foldl]
        norm_num [specStep]

/-- The terminal job-row state left behind by a first invocation that
failed during its transcription stage. -/
def failedJobState : OrchState := runWithFault initialJob 2 2 3 6 "boom"

/-- C6 counterexample: re-invoking `process_audio_file` on the same
recording reuses the existing job row and its first commit sets it back
to PROCESSING (lines 49–68), so a FAILED job transitions out of its
terminal status and the observed two-invocation trace violates the
claimed state machine. -/
theorem resubmission_leaves_terminal_status :
    failedJobState.jobStatus = PStatus.failed ∧
    (runPrefix failedJobState 1 1 1 1).jobStatus = PStatus.processing ∧
    specStep (failedJobState.jobStatus, failedJobState.progress)
      ((runPrefix failedJobState 1 1 1 1).jobStatus,
       (runPrefix failedJobState 1 1 1 1).progress) = false := by
  exact ⟨by decide, by decide, by decide⟩

/-! ## C7 — single top-level catch, failure bookkeeping, no rollback -/

/-- C7: an error raised between any two commit points of an orchestration
run is handled by the single top-level handler, which marks the job
FAILED with the error's description and a completion timestamp, marks
the recording FAILED with the same message, and returns a failure
result; every artifact committed by earlier completed steps — speaker
rows, embedding records, segment rows, association rows — is left
exactly as it was at the last commit before the fault (no rollback).
In particular a transcription-stage fault (`j = 7`) leaves the
identification-stage embeddings and speakers intact. -/
theorem orchestrator_failure_handling (nSpk nNew nSeg : Nat) (j : Fin 13)
    (msg : String) :
    (runWithFault initialJob nSpk nNew nSeg (j.val + 1) msg).jobStatus = PStatus.failed ∧
    (runWithFault initialJob nSpk nNew nSeg (j.val + 1) msg).jobError = some msg ∧
    (runWithFault initialJob nSpk nNew nSeg (j.val + 1) msg).completedAt = true ∧
    (runWithFault initialJob nSpk nNew nSeg (j.val + 1) msg).audioStatus = PStatus.failed ∧
    (runWithFault initialJob nSpk nNew nSeg (j.val + 1) msg).audioError = some msg ∧
    failResult msg = (false, some msg) ∧
    (runWithFault initialJob nSpk nNew nSeg (j.val + 1) msg).speakers =
      (runPrefix initialJob nSpk nNew nSeg (j.val + 1)).speakers ∧
    (runWithFault initialJob nSpk nNew nSeg (j.val + 1) msg).embeddings =
      (runPrefix initialJob nSpk nNew nSeg (j.val + 1)).embeddings ∧
    (runWithFault initialJob nSpk nNew nSeg (j.val + 1) msg).segments =
      (runPrefix initialJob nSpk nNew nSeg (j.val + 1)).segments ∧
    (runWithFault initialJob nSpk nNew nSeg (j.val + 1) msg).links =
      (runPrefix initialJob nSpk nNew nSeg (j.val + 1)).links := by
  simp [runWithFault, catchFail, failResult]

/-! ## C8 — createLink silently duplicates the per-pair aggregate row -/

/-- A database with one speaker and no associations yet. -/
def linkDB : DB := ⟨[⟨"a", "Alice", 30, 1⟩], [], []⟩

/-- C8 (code bug): `create_speaker_audio_association` performs no
existence check and no upsert — calling it twice for the same
(identity, recording) pair leaves two association rows for that pair,
although `update_speaker_stats` and `merge_speakers` (which use
`.first()` on the pair) assume it is unique. -/
theorem create_link_duplicates_pair :
    ((SpeakerManager.create_speaker_audio_association
        (SpeakerManager.create_speaker_audio_association linkDB "a" "f1" 10 2 "l1").2
        "a" "f1" 5 1 "l2").2.links.filter
      (fun l => l.speaker_id == "a" && l.audio_file_id == "f1")).length = 2 := by
  decide

/-! ## C10 — auto-generated display names can collide -/

/-- The state after: create (auto-name Speaker_001, id A), create
(Speaker_002, id B), delete A, create (auto-name from count 1 again:
Speaker_002, id C). -/
def dupNameState : MState :=
  ⟨(SpeakerManager.create_speaker
      (SpeakerManager.delete_speaker
        ⟨(SpeakerManager.create_speaker
            (SpeakerManager.create_speaker DB.empty none "A").2 none "B").2,
          VectorStore.empty⟩ "A").2.db none "C").2,
    VectorStore.empty⟩

/-- C10: `create_speaker` derives the auto-name from the current total row
count, so after create, create, delete-first, create, the two live
identities `B` and `C` both carry the name `Speaker_002`. -/
theorem auto_names_collide :
    SpeakerManager.get_speaker dupNameState.db "B" = some ⟨"B", "Speaker_002", 0, 0⟩ ∧
    SpeakerManager.get_speaker dupNameState.db "C" = some ⟨"C", "Speaker_002", 0, 0⟩ ∧
    ("B" : String) ≠ "C" := by
  exact ⟨by decide, by decide, by decide⟩

end Orbi
